import Mathlib

/-!
# Shallow embedding of the base-fastapi authentication subsystem

This file embeds the authentication / authorization core of the
`base-fastapi` repository (FastAPI + SQLAlchemy) as executable Lean
definitions and proves properties of the embedded code.

Modelling conventions:
* The database session is a pure value `DB` holding the `users` and
  `api_keys` tables as lists; SQLAlchemy `select ... filter ... first()`
  becomes `List.find?`, `DELETE WHERE id IN ids` becomes a filter plus a
  row count, and endpoints that mutate state return the new `DB`
  explicitly.
* Wall-clock time (`datetime.now()` / `datetime.utcnow()`) is an explicit
  `now : Nat` parameter (a unix timestamp in seconds); `timedelta`s become
  second counts.
* `jwt.decode` together with the pydantic `TokenPayload(**payload)` parse
  is abstracted as an `Option TokenPayload` input to the resolver:
  `none` is the `(JWTError, ValidationError)` case (bad signature or
  unparseable payload), `some td` a signature-valid parsed payload.
  `jwt.encode` is abstracted away: the token service is modelled at the
  payload level.
* The bcrypt `CryptContext` password hasher is an external library
  (passlib), not code of this repository; it is modelled from the spec,
  parameterised by an abstract digest function and the random salt.
* Randomness (bcrypt salt, fresh primary keys) is passed in as explicit
  parameters.
* `created_at` / `updated_at` audit timestamps are carried by no logic in
  the verified endpoints and are omitted from the record types.
-/

namespace BaseFastapi

/-- Modelled from the spec: the Credential Hasher (`passlib`
`CryptContext(schemes=["bcrypt"])`, an external library not present in the
repository). A stored hash bundles the random salt with the digest of the
salt and the password; §4.1 of the spec: "deterministic-length,
randomized-salt one-way hash". -/
structure PwHash where
  salt : String
  digest : String
deriving Repr, DecidableEq

/-- A row of the `users` table (`app/models/user.py`): identity and
permission attributes actually read by the verified endpoints. -/
structure UserRec where
  id : Nat
  email : String
  username : String
  hashed_password : PwHash
  full_name : Option String
  is_active : Bool
  is_superuser : Bool
deriving Repr, DecidableEq

/-- A row of the `api_keys` table (`app/models/api_key.py`).
`expires_at` is a nullable timestamp. -/
structure APIKeyRec where
  id : Nat
  key : String
  name : String
  user_id : Nat
  is_active : Bool
  expires_at : Option Nat
deriving Repr, DecidableEq

/-- The database session state: the two tables the auth subsystem touches. -/
structure DB where
  users : List UserRec
  api_keys : List APIKeyRec
deriving Repr, DecidableEq

/-- A `fastapi.HTTPException`: status code plus detail message. -/
structure HTTPError where
  status_code : Nat
  detail : String
deriving Repr, DecidableEq

/-- `app/schemas/token.py` `TokenPayload`: the parsed JWT claims. -/
structure TokenPayload where
  sub : String
  exp : Nat
  is_superuser : Bool
deriving Repr, DecidableEq

/-- `app/schemas/token.py` `Token`: the login response body. The
`access_token` is modelled at payload level (signing abstracted). -/
structure Token where
  access_token : TokenPayload
  token_type : String
deriving Repr, DecidableEq

/-- `app/schemas/user.py` `UserCreate` (pydantic defaults
`is_active = True`, `is_superuser = False` are supplied by callers). -/
structure UserCreate where
  email : String
  username : String
  password : String
  full_name : Option String
  is_active : Bool
  is_superuser : Bool
deriving Repr, DecidableEq

/-- `app/schemas/api_key.py` `APIKeyUpdate` with pydantic
`exclude_unset` semantics: `none` in an outer `Option` means the field was
not supplied and is left unchanged by `CRUDBase.update`. -/
structure APIKeyUpdate where
  name : Option String
  is_active : Option Bool
  expires_at : Option (Option Nat)
deriving Repr, DecidableEq

/-- Modelled from the spec: `get_password_hash` in `app/core/security.py`
delegates to the external passlib bcrypt context. `H` is the abstract
one-way digest, `salt` the random salt passlib draws. -/
def get_password_hash (H : String → String → String) (salt : String)
    (password : String) : PwHash :=
  ⟨salt, H salt password⟩

/-- Modelled from the spec: `verify_password` in `app/core/security.py`
(passlib `pwd_context.verify`): re-digest the candidate password with the
stored salt and compare. Total: returns a `Bool`, never throws. -/
def verify_password (H : String → String → String) (plain_password : String)
    (hashed_password : PwHash) : Bool :=
  H hashed_password.salt plain_password == hashed_password.digest

/-- `app/core/security.py` `create_access_token`, at payload level:
`{"exp": expire, "sub": str(subject), "is_superuser": False}` where
`expire = now + expires_delta` when a delta is given, else
`now + ACCESS_TOKEN_EXPIRE_MINUTES` worth of seconds. -/
def create_access_token (now : Nat) (subject : Nat)
    (expires_delta : Option Nat) (default_expire_seconds : Nat) :
    TokenPayload :=
  let expire : Nat :=
    match expires_delta with
    | some d => now + d
    | none => now + default_expire_seconds
  { sub := toString subject, exp := expire, is_superuser := false }

namespace crud_user

/-- `CRUDBase.get` specialised to users: `SELECT ... WHERE id = :id`,
first row. -/
def get (db : DB) (id : Nat) : Option UserRec :=
  db.users.find? (fun u => u.id == id)

/-- `CRUDUser.get_by_email`: `SELECT ... WHERE email = :email`, first row. -/
def get_by_email (db : DB) (email : String) : Option UserRec :=
  db.users.find? (fun u => u.email == email)

/-- `CRUDUser.get_by_username`: first row with the given username. -/
def get_by_username (db : DB) (username : String) : Option UserRec :=
  db.users.find? (fun u => u.username == username)

/-- `CRUDUser.create`: builds the `User` row from the schema object,
hashing the password, and inserts it. `newId` is the primary key the
database assigns, `salt` the salt the hasher draws. -/
def create (H : String → String → String) (db : DB) (newId : Nat)
    (salt : String) (obj_in : UserCreate) : DB × UserRec :=
  let db_obj : UserRec :=
    { id := newId
      email := obj_in.email
      username := obj_in.username
      hashed_password := get_password_hash H salt obj_in.password
      full_name := obj_in.full_name
      is_active := obj_in.is_active
      is_superuser := obj_in.is_superuser }
  ({ db with users := db.users ++ [db_obj] }, db_obj)

/-- `CRUDBase.remove` specialised to users: fetch the first row with the
given id, delete that row, return it. -/
def remove (db : DB) (id : Nat) : DB × Option UserRec :=
  let obj := db.users.find? (fun u => u.id == id)
  ({ db with users := db.users.eraseP (fun u => u.id == id) }, obj)

/-- `CRUDBase.bulk_delete` specialised to users:
`DELETE WHERE id IN ids`, returning the affected row count. -/
def bulk_delete (db : DB) (ids : List Nat) : DB × Nat :=
  ({ db with users := db.users.filter (fun u => !(ids.contains u.id)) },
    db.users.countP (fun u => ids.contains u.id))

end crud_user

namespace crud_api_key

/-- `CRUDBase.get` specialised to api keys. -/
def get (db : DB) (id : Nat) : Option APIKeyRec :=
  db.api_keys.find? (fun k => k.id == id)

/-- `CRUDAPIKey.get_by_key`: exact-match lookup on the `key` column. -/
def get_by_key (db : DB) (key : String) : Option APIKeyRec :=
  db.api_keys.find? (fun k => k.key == key)

/-- `CRUDAPIKey.is_active` (the key-liveness check, the spec's `isLive`):
`api_key.is_active and (api_key.expires_at is None or
api_key.expires_at > datetime.utcnow())`. -/
def is_active (api_key : APIKeyRec) (now : Nat) : Bool :=
  api_key.is_active &&
    (match api_key.expires_at with
     | none => true
     | some e => now < e)

/-- `CRUDBase.update` specialised to api keys with an `APIKeyUpdate`
payload: every field present in `obj_in.dict(exclude_unset=True)`
overwrites the row's field. -/
def apply_update (db_obj : APIKeyRec) (obj_in : APIKeyUpdate) : APIKeyRec :=
  { db_obj with
    name := obj_in.name.getD db_obj.name
    is_active := obj_in.is_active.getD db_obj.is_active
    expires_at := obj_in.expires_at.getD db_obj.expires_at }

/-- `CRUDBase.update` specialised to api keys: write the updated row back
to the table and return it. -/
def update (db : DB) (db_obj : APIKeyRec) (obj_in : APIKeyUpdate) :
    DB × APIKeyRec :=
  let obj' := apply_update db_obj obj_in
  ({ db with
      api_keys := db.api_keys.map (fun k => if k.id == db_obj.id then obj' else k) },
    obj')

/-- `CRUDBase.remove` specialised to api keys. -/
def remove (db : DB) (id : Nat) : DB × Option APIKeyRec :=
  let obj := db.api_keys.find? (fun k => k.id == id)
  ({ db with api_keys := db.api_keys.eraseP (fun k => k.id == id) }, obj)

end crud_api_key

/-! ## `app/dependencies/auth.py` — the Principal Resolver -/

/-- `get_current_user`: decode the bearer token (abstracted: `decoded` is
`none` on `JWTError` / `ValidationError`), then the dependency's own
expiry check `datetime.fromtimestamp(token_data.exp) < datetime.now()`,
then load the user by the token subject (the database coerces the string
subject against the integer `id` column). -/
def get_current_user (db : DB) (now : Nat) (decoded : Option TokenPayload) :
    Except HTTPError UserRec :=
  match decoded with
  | none =>
    .error ⟨401, "Could not validate credentials"⟩
  | some token_data =>
    if token_data.exp < now then
      .error ⟨401, "Token has expired"⟩
    else
      match db.users.find? (fun u => toString u.id == token_data.sub) with
      | none => .error ⟨404, "User not found"⟩
      | some user => .ok user

/-- `get_current_active_user`: `get_current_user`, then reject inactive
users. -/
def get_current_active_user (db : DB) (now : Nat)
    (decoded : Option TokenPayload) : Except HTTPError UserRec :=
  match get_current_user db now decoded with
  | .error e => .error e
  | .ok current_user =>
    if !current_user.is_active then
      .error ⟨400, "Inactive user"⟩
    else
      .ok current_user

/-- `get_current_superuser`: `get_current_active_user`, then reject
non-superusers — the check reads `current_user.is_superuser` from the
stored row, never the token claim. -/
def get_current_superuser (db : DB) (now : Nat)
    (decoded : Option TokenPayload) : Except HTTPError UserRec :=
  match get_current_active_user db now decoded with
  | .error e => .error e
  | .ok current_user =>
    if !current_user.is_superuser then
      .error ⟨403, "Not enough permissions"⟩
    else
      .ok current_user

/-- `get_user_by_api_key`: resolve the `X-API-Key` header to a user.
Mirrors the source's inline checks: missing header → 401, no exact key
match → 401, `not api_key_obj.is_active` → 401,
`api_key_obj.expires_at and api_key_obj.expires_at < datetime.now()` →
401, missing owning user → 404, inactive owning user → 400. Performs
only reads: the `DB` is not modified. -/
def get_user_by_api_key (db : DB) (now : Nat) (api_key : Option String) :
    Except HTTPError UserRec :=
  match api_key with
  | none =>
    .error ⟨401, "API key is missing"⟩
  | some key =>
    match crud_api_key.get_by_key db key with
    | none => .error ⟨401, "Invalid API key"⟩
    | some api_key_obj =>
      if !api_key_obj.is_active then
        .error ⟨401, "API key is inactive"⟩
      else if (match api_key_obj.expires_at with
               | some e => decide (e < now)
               | none => false) then
        .error ⟨401, "API key has expired"⟩
      else
        match crud_user.get db api_key_obj.user_id with
        | none => .error ⟨404, "User not found"⟩
        | some user =>
          if !user.is_active then
            .error ⟨400, "Inactive user"⟩
          else
            .ok user

/-! ## `app/api/v1/endpoints/auth.py` -/

/-- The two-step lookup at the top of `login_access_token`: try email
first, then username. -/
def login_lookup (db : DB) (username : String) : Option UserRec :=
  match crud_user.get_by_email db username with
  | some user => some user
  | none => crud_user.get_by_username db username

/-- `login_access_token` (`POST /auth/token`): resolve the `username`
form field by email then username, check the password, reject inactive
users, and answer with a bearer token whose ttl is
`ACCESS_TOKEN_EXPIRE_MINUTES` minutes. -/
def login_access_token (H : String → String → String) (db : DB) (now : Nat)
    (access_token_expire_minutes : Nat) (default_expire_seconds : Nat)
    (username password : String) : Except HTTPError Token :=
  match login_lookup db username with
  | none =>
    .error ⟨401, "Incorrect username/email or password"⟩
  | some user =>
    if !verify_password H password user.hashed_password then
      .error ⟨401, "Incorrect username/email or password"⟩
    else if !user.is_active then
      .error ⟨400, "Inactive user"⟩
    else
      .ok { access_token :=
              create_access_token now user.id
                (some (access_token_expire_minutes * 60))
                default_expire_seconds
            token_type := "bearer" }

/-- `register_user` (`POST /auth/register`): reject duplicate email or
username, then force `is_superuser = False` on the submitted data and
create the user. -/
def register_user (H : String → String → String) (db : DB) (newId : Nat)
    (salt : String) (user_in : UserCreate) : DB × Except HTTPError UserRec :=
  match crud_user.get_by_email db user_in.email with
  | some _ => (db, .error ⟨400, "A user with this email already exists."⟩)
  | none =>
    match crud_user.get_by_username db user_in.username with
    | some _ =>
      (db, .error ⟨400, "A user with this username already exists."⟩)
    | none =>
      let user_data := { user_in with is_superuser := false }
      let created := crud_user.create H db newId salt user_data
      (created.1, .ok created.2)

/-! ## `app/api/v1/endpoints/users.py` -/

/-- `read_user` (`GET /users/{user_id}`): 404 when the id has no row,
403 when the row is not the actor's own and the actor is not a
superuser. -/
def read_user (db : DB) (current_user : UserRec) (user_id : Nat) :
    Except HTTPError UserRec :=
  match crud_user.get db user_id with
  | none => .error ⟨404, "Không tìm thấy người dùng"⟩
  | some user =>
    if user.id != current_user.id && !current_user.is_superuser then
      .error ⟨403, "Không đủ quyền truy cập"⟩
    else
      .ok user

/-- `delete_user` (`DELETE /users/{user_id}`, superuser-gated): 404 when
the id has no row, 400 when the target is the actor's own account,
otherwise remove the row. -/
def delete_user (db : DB) (current_user : UserRec) (user_id : Nat) :
    DB × Except HTTPError UserRec :=
  match crud_user.get db user_id with
  | none => (db, .error ⟨404, "Không tìm thấy người dùng"⟩)
  | some user =>
    if user.id == current_user.id then
      (db, .error ⟨400, "Không thể xóa tài khoản đang sử dụng"⟩)
    else
      let removed := crud_user.remove db user_id
      (removed.1, .ok user)

/-- `bulk_delete_users` (`POST /users/bulk-delete`, superuser-gated): the
whole request is rejected before any delete when the actor's id appears
in the target list; otherwise delegate to `CRUDBase.bulk_delete` and
report the deleted row count. -/
def bulk_delete_users (db : DB) (current_user : UserRec)
    (user_ids : List Nat) : DB × Except HTTPError Nat :=
  if user_ids.contains current_user.id then
    (db, .error ⟨400, "Không thể xóa tài khoản đang sử dụng"⟩)
  else
    let deleted := crud_user.bulk_delete db user_ids
    (deleted.1, .ok deleted.2)

/-! ## `app/api/v1/endpoints/api_keys.py` -/

/-- `read_api_key` (`GET /api-keys/{api_key_id}`): 404 when the id has no
row, 403 when the key is not owned by the actor and the actor is not a
superuser. -/
def read_api_key (db : DB) (current_user : UserRec) (api_key_id : Nat) :
    Except HTTPError APIKeyRec :=
  match crud_api_key.get db api_key_id with
  | none => .error ⟨404, "API key not found"⟩
  | some api_key =>
    if api_key.user_id != current_user.id && !current_user.is_superuser then
      .error ⟨403, "Not enough permissions"⟩
    else
      .ok api_key

/-- `update_api_key` (`PUT /api-keys/{api_key_id}`): same 404/403 gates as
`read_api_key`, then apply the update payload. -/
def update_api_key (db : DB) (current_user : UserRec) (api_key_id : Nat)
    (api_key_in : APIKeyUpdate) : DB × Except HTTPError APIKeyRec :=
  match crud_api_key.get db api_key_id with
  | none => (db, .error ⟨404, "API key not found"⟩)
  | some api_key =>
    if api_key.user_id != current_user.id && !current_user.is_superuser then
      (db, .error ⟨403, "Not enough permissions"⟩)
    else
      let updated := crud_api_key.update db api_key api_key_in
      (updated.1, .ok updated.2)

/-- `delete_api_key` (`DELETE /api-keys/{api_key_id}`): same 404/403 gates
as `read_api_key`, then remove the row and return it. -/
def delete_api_key (db : DB) (current_user : UserRec) (api_key_id : Nat) :
    DB × Except HTTPError (Option APIKeyRec) :=
  match crud_api_key.get db api_key_id with
  | none => (db, .error ⟨404, "API key not found"⟩)
  | some api_key =>
    if api_key.user_id != current_user.id && !current_user.is_superuser then
      (db, .error ⟨403, "Not enough permissions"⟩)
    else
      let removed := crud_api_key.remove db api_key_id
      (removed.1, .ok removed.2)

/-! ## Concrete sample data for witness instantiations -/

/-- A concrete digest function standing in for bcrypt in witnesses. -/
def sampleDigest : String → String → String :=
  fun salt p => salt ++ ":" ++ p

/-- A concrete user row with the given id, superuser flag and active
flag. -/
def mkUser (id : Nat) (su act : Bool) : UserRec :=
  ⟨id, toString id ++ "@x.com", "u" ++ toString id, ⟨"s", "d"⟩, none, act, su⟩

/-! ## Theorems -/

/-- C7: `CRUDAPIKey.is_active` (the spec's `isLive`) returns false iff
the key's `is_active` flag is false or `expires_at` is at or before the
current time, and returns true iff the flag is true and `expires_at` is
unset or strictly in the future — the exhaustive truth table over the two
conditions. -/
theorem is_live_truth_table (api_key : APIKeyRec) (now : Nat) :
    (crud_api_key.is_active api_key now = false ↔
      (api_key.is_active = false ∨
        ∃ e, api_key.expires_at = some e ∧ e ≤ now)) ∧
    (crud_api_key.is_active api_key now = true ↔
      (api_key.is_active = true ∧
        (api_key.expires_at = none ∨
          ∃ e, api_key.expires_at = some e ∧ now < e))) := by
  unfold crud_api_key.is_active
  cases hexp : api_key.expires_at with
  | none =>
    cases hact : api_key.is_active <;> simp
  | some e =>
    cases hact : api_key.is_active <;>
      simp [Nat.lt_iff_add_one_le, Nat.not_lt, Nat.not_le]

/-- C9: for every password the hash verifies against itself
(`verify(p, hash(p)) = true`); for distinct passwords whose digests do
not collide, verification fails (`verify(p1, hash(p2)) = false`); and
`verify_password` is a total boolean function — it never throws. -/
theorem verify_hash_roundtrip :
    (∀ (H : String → String → String) (salt p : String),
      verify_password H p (get_password_hash H salt p) = true) ∧
    (∀ (H : String → String → String) (salt p1 p2 : String),
      p1 ≠ p2 → H salt p1 ≠ H salt p2 →
      verify_password H p1 (get_password_hash H salt p2) = false) := by
  constructor
  · intro H salt p
    simp [verify_password, get_password_hash]
  · intro H salt p1 p2 _ hne
    simp [verify_password, get_password_hash, hne]

theorem verify_hash_roundtrip_witness :
    verify_password sampleDigest "pw"
        (get_password_hash sampleDigest "s" "pw") = true ∧
    verify_password sampleDigest "pw"
        (get_password_hash sampleDigest "s" "other") = false :=
  ⟨verify_hash_roundtrip.1 sampleDigest "s" "pw",
   verify_hash_roundtrip.2 sampleDigest "s" "pw" "other"
     (by decide) (by decide)⟩

/-- C1: whenever the public registration endpoint succeeds, the stored
user record has `is_superuser = false` and sits in the resulting
database — whatever `is_superuser` value the caller supplied. -/
theorem register_forces_not_superuser
    (H : String → String → String) (db : DB) (newId : Nat) (salt : String)
    (user_in : UserCreate) (db' : DB) (user : UserRec)
    (h : register_user H db newId salt user_in = (db', .ok user)) :
    user.is_superuser = false ∧ user ∈ db'.users := by
  unfold register_user at h
  cases he : crud_user.get_by_email db user_in.email with
  | some u => rw [he] at h; simp at h
  | none =>
    rw [he] at h
    cases hu : crud_user.get_by_username db user_in.username with
    | some u => rw [hu] at h; simp at h
    | none =>
      rw [hu] at h
      simp only [crud_user.create, Prod.mk.injEq, Except.ok.injEq] at h
      obtain ⟨hdb, huser⟩ := h
      subst hdb
      subst huser
      refine ⟨rfl, ?_⟩
      simp

/-- Sample created user for the C1 witness. -/
def sampleRegistered : UserRec :=
  ⟨1, "x@x.com", "x", get_password_hash sampleDigest "s" "p", none, true,
    false⟩

theorem register_forces_not_superuser_witness :
    sampleRegistered.is_superuser = false ∧
    sampleRegistered ∈ (DB.mk [sampleRegistered] []).users :=
  register_forces_not_superuser sampleDigest ⟨[], []⟩ 1 "s"
    ⟨"x@x.com", "x", "p", none, true, true⟩ (DB.mk [sampleRegistered] [])
    sampleRegistered rfl

/-- C3: a bulk-delete whose target list contains the acting superuser's
id fails with the self-delete error and leaves the database unchanged —
zero records deleted; and a single delete whose target row is the actor's
own account fails with the same error, also leaving the database
unchanged. -/
theorem self_delete_forbidden :
    (∀ (db : DB) (actor : UserRec) (user_ids : List Nat),
      actor.id ∈ user_ids →
      bulk_delete_users db actor user_ids =
        (db, .error ⟨400, "Không thể xóa tài khoản đang sử dụng"⟩)) ∧
    (∀ (db : DB) (actor : UserRec) (user_id : Nat) (target : UserRec),
      crud_user.get db user_id = some target →
      target.id = actor.id →
      delete_user db actor user_id =
        (db, .error ⟨400, "Không thể xóa tài khoản đang sử dụng"⟩)) := by
  constructor
  · intro db actor user_ids hmem
    unfold bulk_delete_users
    simp [hmem]
  · intro db actor user_id target hget heq
    unfold delete_user
    rw [hget]
    simp [heq]

theorem self_delete_forbidden_witness :
    bulk_delete_users ⟨[mkUser 5 true true], []⟩ (mkUser 5 true true)
        [1, 5, 9] =
      (⟨[mkUser 5 true true], []⟩,
        .error ⟨400, "Không thể xóa tài khoản đang sử dụng"⟩) ∧
    delete_user ⟨[mkUser 5 true true], []⟩ (mkUser 5 true true) 5 =
      (⟨[mkUser 5 true true], []⟩,
        .error ⟨400, "Không thể xóa tài khoản đang sử dụng"⟩) :=
  ⟨self_delete_forbidden.1 _ _ [1, 5, 9] (by decide),
   self_delete_forbidden.2 _ _ 5 (mkUser 5 true true) rfl rfl⟩

/-- C2: for a stored API key and a stored user row, the ownership gate of
the API-key read, update and delete endpoints and of the user
read-by-id endpoint passes exactly when the actor owns the resource or is
a superuser; otherwise each endpoint fails with the 403 error and mutates
nothing. -/
theorem ownership_gate_uniform
    (db : DB) (actor : UserRec) (api_key_id user_id : Nat)
    (api_key : APIKeyRec) (target : UserRec) (api_key_in : APIKeyUpdate)
    (hak : crud_api_key.get db api_key_id = some api_key)
    (hu : crud_user.get db user_id = some target) :
    ((actor.id = api_key.user_id ∨ actor.is_superuser = true) →
      read_api_key db actor api_key_id = .ok api_key ∧
      (update_api_key db actor api_key_id api_key_in).2 =
        .ok (crud_api_key.apply_update api_key api_key_in) ∧
      (delete_api_key db actor api_key_id).2 = .ok (some api_key)) ∧
    (¬(actor.id = api_key.user_id ∨ actor.is_superuser = true) →
      read_api_key db actor api_key_id =
        .error ⟨403, "Not enough permissions"⟩ ∧
      update_api_key db actor api_key_id api_key_in =
        (db, .error ⟨403, "Not enough permissions"⟩) ∧
      delete_api_key db actor api_key_id =
        (db, .error ⟨403, "Not enough permissions"⟩)) ∧
    ((actor.id = target.id ∨ actor.is_superuser = true) →
      read_user db actor user_id = .ok target) ∧
    (¬(actor.id = target.id ∨ actor.is_superuser = true) →
      read_user db actor user_id =
        .error ⟨403, "Không đủ quyền truy cập"⟩) := by
  have hremove : db.api_keys.find? (fun k => k.id == api_key_id) =
      some api_key := hak
  refine ⟨?_, ?_, ?_, ?_⟩
  · rintro (h | h)
    · simp [read_api_key, update_api_key, delete_api_key,
        crud_api_key.update, crud_api_key.remove, hak, hremove, ← h]
    · simp [read_api_key, update_api_key, delete_api_key,
        crud_api_key.update, crud_api_key.remove, hak, hremove, h]
  · intro hn
    have h1 : actor.id ≠ api_key.user_id := fun hh => hn (Or.inl hh)
    have h2 : actor.is_superuser = false := by
      cases hsu : actor.is_superuser
      · rfl
      · exact absurd (Or.inr hsu) hn
    have h1' : api_key.user_id ≠ actor.id := Ne.symm h1
    simp [read_api_key, update_api_key, delete_api_key, hak, h2, h1']
  · rintro (h | h)
    · simp [read_user, hu, ← h]
    · simp [read_user, hu, h]
  · intro hn
    have h1 : actor.id ≠ target.id := fun hh => hn (Or.inl hh)
    have h2 : actor.is_superuser = false := by
      cases hsu : actor.is_superuser
      · rfl
      · exact absurd (Or.inr hsu) hn
    have h1' : target.id ≠ actor.id := Ne.symm h1
    simp [read_user, hu, h2, h1']

/-- Sample actor owning `sampleKey` for the C2 witness. -/
def sampleActor : UserRec := mkUser 5 false true

/-- Sample API key owned by `sampleActor` for the C2 witness. -/
def sampleKey : APIKeyRec := ⟨1, "kw", "wkey", 5, true, none⟩

/-- Sample database holding `sampleActor`, a second user and `sampleKey`
for the C2 witness. -/
def sampleGateDB : DB := ⟨[sampleActor, mkUser 7 false true], [sampleKey]⟩

theorem ownership_gate_uniform_witness :
    read_api_key sampleGateDB sampleActor 1 = .ok sampleKey :=
  ((ownership_gate_uniform sampleGateDB sampleActor 1 7 sampleKey
      (mkUser 7 false true) ⟨none, none, none⟩ rfl rfl).1 (Or.inl rfl)).1

/-- C10: a bulk delete whose target list avoids the actor's id succeeds,
reports exactly the number of stored rows whose id is in the list (ids
with no backing row are skipped silently), and the remaining table holds
exactly the rows whose id was not targeted. -/
theorem bulk_delete_count_and_membership
    (db : DB) (actor : UserRec) (user_ids : List Nat)
    (h : actor.id ∉ user_ids) :
    (bulk_delete_users db actor user_ids).2 =
      .ok (db.users.countP (fun u => user_ids.contains u.id)) ∧
    ∀ u : UserRec,
      u ∈ (bulk_delete_users db actor user_ids).1.users ↔
        (u ∈ db.users ∧ u.id ∉ user_ids) := by
  constructor
  · simp [bulk_delete_users, h, crud_user.bulk_delete]
  · intro u
    simp [bulk_delete_users, h, crud_user.bulk_delete, List.mem_filter]

theorem bulk_delete_count_and_membership_witness :
    (bulk_delete_users ⟨[mkUser 1 false true, mkUser 2 false true], []⟩
        (mkUser 5 true true) [2, 3]).2 = .ok 1 :=
  (bulk_delete_count_and_membership
    ⟨[mkUser 1 false true, mkUser 2 false true], []⟩
    (mkUser 5 true true) [2, 3] (by decide)).1

/-- C4 counterexample: a token whose `exp` equals the current time is at
or before the current time, yet `get_current_user` accepts it — the
dependency's own check `token_data.exp < now` is strict, so the claim's
"at or before" boundary fails. -/
theorem token_expiry_boundary_counterexample :
    (10 : Nat) ≤ 10 ∧
    get_current_user ⟨[mkUser 7 false true], []⟩ 10
        (some ⟨"7", 10, false⟩) = .ok (mkUser 7 false true) :=
  ⟨Nat.le_refl 10, rfl⟩

/-- C4 (amended): verification fails with the 401 invalid-credentials
error when the token cannot be decoded or parsed, fails with the 401
expired error when `exp` is strictly before the current time (this
comparison made by the resolver itself), and on success returns the
stored user matching the parsed subject; a token whose `exp` equals the
current instant is accepted. -/
theorem token_verification_characterization :
    (∀ (db : DB) (now : Nat),
      get_current_user db now none =
        .error ⟨401, "Could not validate credentials"⟩) ∧
    (∀ (db : DB) (now : Nat) (td : TokenPayload),
      td.exp < now →
      get_current_user db now (some td) =
        .error ⟨401, "Token has expired"⟩) ∧
    (∀ (db : DB) (now : Nat) (td : TokenPayload) (user : UserRec),
      now ≤ td.exp →
      db.users.find? (fun u => toString u.id == td.sub) = some user →
      get_current_user db now (some td) = .ok user) := by
  refine ⟨fun db now => rfl, ?_, ?_⟩
  · intro db now td hlt
    simp [get_current_user, hlt]
  · intro db now td user hle hfind
    simp [get_current_user, Nat.not_lt.mpr hle, hfind]

theorem token_verification_characterization_witness :
    get_current_user ⟨[mkUser 7 false true], []⟩ 10 none =
      .error ⟨401, "Could not validate credentials"⟩ ∧
    get_current_user ⟨[mkUser 7 false true], []⟩ 10
        (some ⟨"7", 9, false⟩) = .error ⟨401, "Token has expired"⟩ ∧
    get_current_user ⟨[mkUser 7 false true], []⟩ 10
        (some ⟨"7", 12, false⟩) = .ok (mkUser 7 false true) :=
  ⟨token_verification_characterization.1 ⟨[mkUser 7 false true], []⟩ 10,
   token_verification_characterization.2.1 ⟨[mkUser 7 false true], []⟩ 10
     ⟨"7", 9, false⟩ (by decide),
   token_verification_characterization.2.2 ⟨[mkUser 7 false true], []⟩ 10
     ⟨"7", 12, false⟩ (mkUser 7 false true) (by decide) rfl⟩

/-- C5: the issued token payload is exactly
`{sub = str subject, exp = now + ttl, is_superuser = false}` for every
subject and ttl; the superuser gate's outcome is independent of the
token's embedded `is_superuser` claim; and whenever the gate passes, the
stored user record it re-read has `is_superuser = true`. -/
theorem token_payload_and_role_recheck :
    (∀ (now subject ttl default_expire_seconds : Nat),
      create_access_token now subject (some ttl) default_expire_seconds =
        { sub := toString subject, exp := now + ttl,
          is_superuser := false }) ∧
    (∀ (db : DB) (now : Nat) (td : TokenPayload) (b1 b2 : Bool),
      get_current_superuser db now (some { td with is_superuser := b1 }) =
        get_current_superuser db now
          (some { td with is_superuser := b2 })) ∧
    (∀ (db : DB) (now : Nat) (decoded : Option TokenPayload)
        (user : UserRec),
      get_current_superuser db now decoded = .ok user →
      user.is_superuser = true) := by
  refine ⟨fun now subject ttl d => rfl, ?_, ?_⟩
  · intro db now td b1 b2
    simp [get_current_superuser, get_current_active_user, get_current_user]
  · intro db now decoded user h
    unfold get_current_superuser at h
    cases ha : get_current_active_user db now decoded with
    | error e => rw [ha] at h; simp at h
    | ok u =>
      rw [ha] at h
      by_cases hsu : u.is_superuser
      · simp [hsu] at h
        subst h
        exact hsu
      · simp [hsu] at h

theorem token_payload_and_role_recheck_witness :
    (mkUser 9 true true).is_superuser = true :=
  token_payload_and_role_recheck.2.2 ⟨[mkUser 9 true true], []⟩ 10
    (some ⟨"9", 20, false⟩) (mkUser 9 true true) rfl

/-- Sample API key whose expiry equals the probe instant, for the C6
counterexample and witness. -/
def sampleBoundaryKey : APIKeyRec := ⟨1, "k", "bkey", 7, true, some 10⟩

/-- Sample database backing `sampleBoundaryKey` with an active owner, for
the C6 counterexample and witness. -/
def sampleBoundaryDB : DB := ⟨[mkUser 7 false true], [sampleBoundaryKey]⟩

/-- C6 counterexample: at `now = 10` the key with `expires_at = 10` is
not live under the `isLive` criterion (`CRUDAPIKey.is_active`), yet
`get_user_by_api_key` resolves it successfully — the dependency's inline
check `expires_at < now` is strict and diverges from `isLive` at the
boundary. -/
theorem api_key_islive_boundary_counterexample :
    crud_api_key.is_active sampleBoundaryKey 10 = false ∧
    get_user_by_api_key sampleBoundaryDB 10 (some "k") =
      .ok (mkUser 7 false true) :=
  ⟨rfl, rfl⟩

/-- C6 (amended): API-key resolution fails 401 when the header is
missing, when no key row matches exactly, when the key is inactive, or
when its expiry is strictly before the current time (a key whose
`expires_at` equals the current instant is accepted, diverging from the
`isLive` criterion at that boundary); past those gates it fails 404 when
no user row backs the owning id and 400 when the owner is inactive, and
otherwise returns the owning user. The resolver takes the database as a
value and returns none — it performs no writes. -/
theorem api_key_resolution_characterization :
    (∀ (db : DB) (now : Nat),
      get_user_by_api_key db now none =
        .error ⟨401, "API key is missing"⟩) ∧
    (∀ (db : DB) (now : Nat) (key : String),
      crud_api_key.get_by_key db key = none →
      get_user_by_api_key db now (some key) =
        .error ⟨401, "Invalid API key"⟩) ∧
    (∀ (db : DB) (now : Nat) (key : String) (ak : APIKeyRec),
      crud_api_key.get_by_key db key = some ak →
      ak.is_active = false →
      get_user_by_api_key db now (some key) =
        .error ⟨401, "API key is inactive"⟩) ∧
    (∀ (db : DB) (now : Nat) (key : String) (ak : APIKeyRec) (e : Nat),
      crud_api_key.get_by_key db key = some ak →
      ak.is_active = true →
      ak.expires_at = some e →
      e < now →
      get_user_by_api_key db now (some key) =
        .error ⟨401, "API key has expired"⟩) ∧
    (∀ (db : DB) (now : Nat) (key : String) (ak : APIKeyRec),
      crud_api_key.get_by_key db key = some ak →
      ak.is_active = true →
      (∀ e, ak.expires_at = some e → now ≤ e) →
      crud_user.get db ak.user_id = none →
      get_user_by_api_key db now (some key) =
        .error ⟨404, "User not found"⟩) ∧
    (∀ (db : DB) (now : Nat) (key : String) (ak : APIKeyRec)
        (user : UserRec),
      crud_api_key.get_by_key db key = some ak →
      ak.is_active = true →
      (∀ e, ak.expires_at = some e → now ≤ e) →
      crud_user.get db ak.user_id = some user →
      user.is_active = false →
      get_user_by_api_key db now (some key) =
        .error ⟨400, "Inactive user"⟩) ∧
    (∀ (db : DB) (now : Nat) (key : String) (ak : APIKeyRec)
        (user : UserRec),
      crud_api_key.get_by_key db key = some ak →
      ak.is_active = true →
      (∀ e, ak.expires_at = some e → now ≤ e) →
      crud_user.get db ak.user_id = some user →
      user.is_active = true →
      get_user_by_api_key db now (some key) = .ok user) := by
  have hexp : ∀ (ak : APIKeyRec) (now : Nat),
      (∀ e, ak.expires_at = some e → now ≤ e) →
      (match ak.expires_at with
       | some e => decide (e < now)
       | none => false) = false := by
    intro ak now hlive
    cases hx : ak.expires_at with
    | none => rfl
    | some e => simpa using Nat.not_lt.mpr (hlive e hx)
  refine ⟨fun db now => rfl, ?_, ?_, ?_, ?_, ?_, ?_⟩
  · intro db now key hnone
    simp [get_user_by_api_key, hnone]
  · intro db now key ak hfind hinact
    simp [get_user_by_api_key, hfind, hinact]
  · intro db now key ak e hfind hact hx hlt
    simp [get_user_by_api_key, hfind, hact, hx, hlt]
  · intro db now key ak hfind hact hlive hnouser
    simp [get_user_by_api_key, hfind, hact, hexp ak now hlive, hnouser]
  · intro db now key ak user hfind hact hlive huser hinact
    simp [get_user_by_api_key, hfind, hact, hexp ak now hlive, huser,
      hinact]
  · intro db now key ak user hfind hact hlive huser hactive
    simp [get_user_by_api_key, hfind, hact, hexp ak now hlive, huser,
      hactive]

theorem api_key_resolution_characterization_witness :
    get_user_by_api_key sampleBoundaryDB 5 (some "k") =
      .ok (mkUser 7 false true) :=
  api_key_resolution_characterization.2.2.2.2.2.2 sampleBoundaryDB 5 "k"
    sampleBoundaryKey (mkUser 7 false true) rfl rfl
    (fun e he => by injection he with h; omega) rfl rfl

/-- C8: the login `username` field is resolved by email first and by
username only when the email lookup misses; an unknown user and a wrong
password both yield the identical generic 401 error; verified credentials
of an inactive user yield the 400 inactive error; and success answers
with the issued access token and `token_type = "bearer"`. -/
theorem login_characterization :
    (∀ (db : DB) (username : String) (user : UserRec),
      crud_user.get_by_email db username = some user →
      login_lookup db username = some user) ∧
    (∀ (db : DB) (username : String),
      crud_user.get_by_email db username = none →
      login_lookup db username = crud_user.get_by_username db username) ∧
    (∀ (H : String → String → String) (db : DB) (now m d : Nat)
        (username password : String),
      login_lookup db username = none →
      login_access_token H db now m d username password =
        .error ⟨401, "Incorrect username/email or password"⟩) ∧
    (∀ (H : String → String → String) (db : DB) (now m d : Nat)
        (username password : String) (user : UserRec),
      login_lookup db username = some user →
      verify_password H password user.hashed_password = false →
      login_access_token H db now m d username password =
        .error ⟨401, "Incorrect username/email or password"⟩) ∧
    (∀ (H : String → String → String) (db : DB) (now m d : Nat)
        (username password : String) (user : UserRec),
      login_lookup db username = some user →
      verify_password H password user.hashed_password = true →
      user.is_active = false →
      login_access_token H db now m d username password =
        .error ⟨400, "Inactive user"⟩) ∧
    (∀ (H : String → String → String) (db : DB) (now m d : Nat)
        (username password : String) (user : UserRec),
      login_lookup db username = some user →
      verify_password H password user.hashed_password = true →
      user.is_active = true →
      login_access_token H db now m d username password =
        .ok { access_token :=
                create_access_token now user.id (some (m * 60)) d
              token_type := "bearer" }) := by
  refine ⟨?_, ?_, ?_, ?_, ?_, ?_⟩
  · intro db username user h
    unfold login_lookup
    rw [h]
  · intro db username h
    unfold login_lookup
    rw [h]
  · intro H db now m d username password h
    unfold login_access_token
    rw [h]
  · intro H db now m d username password user h hv
    unfold login_access_token
    rw [h]
    simp [hv]
  · intro H db now m d username password user h hv hact
    unfold login_access_token
    rw [h]
    simp [hv, hact]
  · intro H db now m d username password user h hv hact
    unfold login_access_token
    rw [h]
    simp [hv, hact]

/-- Sample stored user for the C8 witness. -/
def sampleLoginUser : UserRec :=
  ⟨3, "x@x.com", "xu", get_password_hash sampleDigest "s" "pw", none,
    true, false⟩

theorem login_characterization_witness :
    login_access_token sampleDigest ⟨[sampleLoginUser], []⟩ 10 30 1800
        "x@x.com" "pw" =
      .ok { access_token := create_access_token 10 3 (some (30 * 60)) 1800
            token_type := "bearer" } :=
  login_characterization.2.2.2.2.2 sampleDigest ⟨[sampleLoginUser], []⟩
    10 30 1800 "x@x.com" "pw" sampleLoginUser rfl rfl rfl

end BaseFastapi
